import Mathlib

/-!
Shallow embedding of `src/inception/inception.py` (an InceptionTime-style
1-D convolutional network for time series, built on PyTorch).

Tensors are modelled as dimension triples/pairs together with a total data
function on natural-number indices.  The entry type is a parameter `α`
(a linearly ordered commutative ring); the real-valued entries of the
program are read at `α = ℚ`, and concrete integer-valued instances are
evaluated at `α = ℤ`.  None of the claims depend on floating-point
rounding.  Operations that raise in PyTorch (shape mismatches, kernels
larger than the padded input, ...) return `none`.

`nn.BatchNorm1d` is embedded in its evaluation-mode semantics: a per-channel
affine map `y = scale c * x + shift c`, with the (real-valued) coefficients
`gamma / sqrt(running_var + eps)` and the corresponding shift taken as
parameters.  No claim depends on the numeric value of these coefficients,
only on whether and where the layer is applied.
-/

/-- A (batched) 3-D tensor of shape `[batch, channels, len]`, as fed to
`F.conv1d`.  `data` is total; entries outside the dimension ranges are
irrelevant junk (all constructors below set them to `0`). -/
@[ext]
structure Tensor3 (α : Type) where
  batch : ℕ
  channels : ℕ
  len : ℕ
  data : ℕ → ℕ → ℕ → α

/-- A 2-D tensor of shape `[rows, cols]`, as fed to `nn.Linear`. -/
@[ext]
structure Tensor2 (α : Type) where
  rows : ℕ
  cols : ℕ
  data : ℕ → ℕ → α

section Layers

variable {α : Type} [LinearOrderedCommRing α]

def Tensor3.dims (t : Tensor3 α) : ℕ × ℕ × ℕ := (t.batch, t.channels, t.len)

def Tensor2.dims (t : Tensor2 α) : ℕ × ℕ := (t.rows, t.cols)

/-- The all-zero tensor of a given shape. -/
def zeroT3 (b c l : ℕ) : Tensor3 α := ⟨b, c, l, fun _ _ _ => 0⟩

/-- The all-one tensor of a given shape. -/
def onesT3 (b c l : ℕ) : Tensor3 α := ⟨b, c, l, fun _ _ _ => 1⟩

/-- `F.pad(input, [l, r])`: zero-pad the last dimension with `l` entries at
the start and `r` entries at the end. -/
def Tensor3.padEnds (t : Tensor3 α) (l r : ℕ) : Tensor3 α where
  batch := t.batch
  channels := t.channels
  len := t.len + l + r
  data := fun n c i => if l ≤ i ∧ i < l + t.len then t.data n c (i - l) else 0

/-- `F.conv1d(input, weight, bias, stride, padding=0, dilation, groups)`:
plain cross-correlation with no implicit padding.  The weight tensor has
shape `(out_channels, in_channels / groups, kernel)`, reusing the `Tensor3`
fields in that order.  The guard collects PyTorch's error conditions:
positive stride/dilation/groups and kernel, channel compatibility,
out-channel divisibility by `groups`, and the effective kernel fitting in
the input. -/
def conv1dRaw (input weight : Tensor3 α) (bias : Option (ℕ → α))
    (stride dilation groups : ℕ) : Option (Tensor3 α) :=
  if 0 < stride ∧ 0 < dilation ∧ 0 < groups ∧ 0 < weight.len ∧
      input.channels = weight.channels * groups ∧
      weight.batch % groups = 0 ∧
      dilation * (weight.len - 1) + 1 ≤ input.len then
    some { batch := input.batch
           channels := weight.batch
           len := (input.len - (dilation * (weight.len - 1) + 1)) / stride + 1
           data := fun n co i =>
             (match bias with | some b => b co | none => 0) +
               ∑ ci ∈ Finset.range weight.channels, ∑ j ∈ Finset.range weight.len,
                 weight.data co ci j *
                   input.data n (co / (weight.batch / groups) * weight.channels + ci)
                     (i * stride + j * dilation) }
  else none

/-- `F.conv1d` with a symmetric `padding` argument: zero-pad both ends of the
last dimension by `padding`, then correlate. -/
def F_conv1d (input weight : Tensor3 α) (bias : Option (ℕ → α))
    (stride padding dilation groups : ℕ) : Option (Tensor3 α) :=
  conv1dRaw (input.padEnds padding padding) weight bias stride dilation groups

/-- The padding amount computed inside `conv1d_same_padding`
(src/inception/inception.py lines 114-118), as a function of the quantities
the code actually reads: `c = input.size(1)` and `w1 = weight.size(1)`
(for a batched 3-D input these are the channel dimensions, not the sequence
length and kernel size), together with `stride[0]` and `dilation[0]`. -/
def paddingLength (c w1 stride dilation : ℕ) : ℕ :=
  (max 0 ((((c + stride - 1) / stride : ℕ) - 1 : ℤ) * stride
      + (((w1 : ℤ) - 1) * dilation + 1) - c)).toNat

/-- `conv1d_same_padding(input, weight, bias, stride, dilation, groups)`
(src/inception/inception.py lines 110-126): compute `padding_length` from
`input.size(1)` and `weight.size(1)`; if it is odd, append one unit of
zero padding at the end of the sequence; then call `F.conv1d` with symmetric
padding `padding_length // 2`. -/
def conv1d_same_padding (input weight : Tensor3 α) (bias : Option (ℕ → α))
    (stride dilation groups : ℕ) : Option (Tensor3 α) :=
  let padding_length := paddingLength input.channels weight.channels stride dilation
  let input' := if padding_length % 2 ≠ 0 then input.padEnds 0 1 else input
  F_conv1d input' weight bias stride (padding_length / 2) dilation groups

/-- A `Conv1dSamePadding` layer: an `nn.Conv1d` whose `forward` routes
through `conv1d_same_padding`.  The weight has shape
`(out_channels, in_channels / groups, kernel_size)`. -/
structure ConvLayer (α : Type) where
  weight : Tensor3 α
  bias : Option (ℕ → α)
  stride : ℕ
  dilation : ℕ
  groups : ℕ

/-- `Conv1dSamePadding.forward` (src/inception/inception.py lines 105-107). -/
def ConvLayer.forward (l : ConvLayer α) (x : Tensor3 α) : Option (Tensor3 α) :=
  conv1d_same_padding x l.weight l.bias l.stride l.dilation l.groups

/-- `Conv1dSamePadding(in_channels, out_channels, kernel_size, stride, bias=False)`
with default `dilation=1`, `groups=1`; the weight entries (randomly
initialised by PyTorch) are supplied as the parameter `w`. -/
def mkConv (in_channels out_channels kernel_size stride : ℕ)
    (w : ℕ → ℕ → ℕ → α) : ConvLayer α :=
  { weight := ⟨out_channels, in_channels, kernel_size, w⟩
    bias := none
    stride := stride
    dilation := 1
    groups := 1 }

/-- `nn.BatchNorm1d(num_features)` in evaluation-mode semantics: a
per-channel affine map (see the file header).  PyTorch raises when the
input's channel count differs from `features`. -/
structure BatchNorm (α : Type) where
  features : ℕ
  scale : ℕ → α
  shift : ℕ → α

def BatchNorm.forward (bn : BatchNorm α) (x : Tensor3 α) : Option (Tensor3 α) :=
  if x.channels = bn.features then
    some { x with data := fun n c i => bn.scale c * x.data n c i + bn.shift c }
  else none

/-- `nn.ReLU()`. -/
def relu (x : Tensor3 α) : Tensor3 α :=
  { x with data := fun n c i => max (x.data n c i) 0 }

/-- Elementwise `+` on tensors with numpy/PyTorch broadcasting on each
dimension (a size-1 dimension is stretched; otherwise sizes must match,
else PyTorch raises). -/
def broadcastDim (a b : ℕ) : Option ℕ :=
  if a = b then some a else if a = 1 then some b else if b = 1 then some a else none

def broadcastIndex (a : ℕ) (i : ℕ) : ℕ := if a = 1 then 0 else i

def Tensor3.add (x y : Tensor3 α) : Option (Tensor3 α) :=
  match broadcastDim x.batch y.batch, broadcastDim x.channels y.channels,
      broadcastDim x.len y.len with
  | some b, some c, some l =>
      some ⟨b, c, l, fun n ch i =>
        x.data (broadcastIndex x.batch n) (broadcastIndex x.channels ch)
            (broadcastIndex x.len i)
          + y.data (broadcastIndex y.batch n) (broadcastIndex y.channels ch)
            (broadcastIndex y.len i)⟩
  | _, _, _ => none

/-- Run a list of layers in sequence (`nn.Sequential` of conv layers),
propagating errors. -/
def seqForward (ls : List (ConvLayer α)) (x : Tensor3 α) : Option (Tensor3 α) :=
  ls.foldlM (fun t l => l.forward t) x

/-- The randomly initialised parameters of one `InceptionBlock`, taken as
inputs of the embedding: entries of the bottleneck weight, of the three main
convolution weights, of the main-path batchnorm, of the residual convolution
weight and of the residual batchnorm. -/
structure BlockWeights (α : Type) where
  wBottleneck : ℕ → ℕ → ℕ → α
  wConv : ℕ → ℕ → ℕ → ℕ → α
  bnScale : ℕ → α
  bnShift : ℕ → α
  wRes : ℕ → ℕ → ℕ → α
  bnResScale : ℕ → α
  bnResShift : ℕ → α

def zeroBlockWeights : BlockWeights α :=
  ⟨fun _ _ _ => 0, fun _ _ _ _ => 0, fun _ => 1, fun _ => 0,
   fun _ _ _ => 0, fun _ => 1, fun _ => 0⟩

/-- The state an `InceptionBlock` holds after `__init__`
(src/inception/inception.py lines 57-85): `self.bottleneck` exists only when
`use_bottleneck`, `self.conv_layers` is the `nn.Sequential` of the three
convolutions, `self.batchnorm`/`self.relu` are the separately constructed
main-path layers, and `self.residual` (a conv / batchnorm / ReLU
`nn.Sequential`) exists only when `residual`. -/
structure InceptionBlock (α : Type) where
  use_bottleneck : Bool
  bottleneck : Option (ConvLayer α)
  conv_layers : List (ConvLayer α)
  batchnorm : BatchNorm α
  use_residual : Bool
  residual : Option (ConvLayer α × BatchNorm α)

/-- `InceptionBlock.__init__(in_channels, out_channels, residual, stride,
bottleneck_channels, kernel_size)` (src/inception/inception.py lines 57-85),
translated line by line:
`use_bottleneck = bottleneck_channels > 0`;
`kernel_size_s = [kernel_size // (2 ** i) for i in range(3)]`;
`channels = [bottleneck_channels] + [out_channels] * 3`;
the three conv layers use `channels[i] -> channels[i+1]` with
`kernel_size_s[i]`. -/
def InceptionBlock.init (in_channels out_channels : ℕ) (residual : Bool)
    (stride bottleneck_channels kernel_size : ℕ) (W : BlockWeights α) :
    InceptionBlock α :=
  let use_bottleneck := decide (0 < bottleneck_channels)
  let kernel_size_s := (List.range 3).map (fun i => kernel_size / 2 ^ i)
  let channels := bottleneck_channels :: [out_channels, out_channels, out_channels]
  { use_bottleneck := use_bottleneck
    bottleneck :=
      if use_bottleneck then
        some (mkConv in_channels bottleneck_channels 1 1 W.wBottleneck)
      else none
    conv_layers := (List.range kernel_size_s.length).map (fun i =>
      mkConv (channels.getD i 0) (channels.getD (i + 1) 0)
        (kernel_size_s.getD i 0) stride (W.wConv i))
    batchnorm := ⟨channels.getD 3 0, W.bnScale, W.bnShift⟩
    use_residual := residual
    residual :=
      if residual then
        some (mkConv in_channels out_channels 1 stride W.wRes,
          ⟨out_channels, W.bnResScale, W.bnResShift⟩)
      else none }

/-- `InceptionBlock.forward` (src/inception/inception.py lines 87-95):
`org_x = x`; apply the bottleneck when `use_bottleneck`; apply
`self.conv_layers`; when `use_residual`, add `self.residual(org_x)`.
Note that `self.batchnorm` and `self.relu` are never applied here, exactly
as in the source. -/
def InceptionBlock.forward (blk : InceptionBlock α) (x : Tensor3 α) :
    Option (Tensor3 α) :=
  (if blk.use_bottleneck then blk.bottleneck.elim none (fun b => b.forward x)
   else some x).bind fun x1 =>
    (seqForward blk.conv_layers x1).bind fun x2 =>
      if blk.use_residual then
        (blk.residual.elim none (fun cb =>
          (cb.1.forward x).bind fun r1 => (cb.2.forward r1).map relu)).bind
          fun r => x2.add r
      else some x2

/-- The main path of `InceptionBlock.forward` as the code computes it:
bottleneck (when present) followed by the three convolutions.  (The
constructed `self.batchnorm` / `self.relu` do not appear: `forward` never
applies them.) -/
def InceptionBlock.mainPath (blk : InceptionBlock α) (x : Tensor3 α) :
    Option (Tensor3 α) :=
  (if blk.use_bottleneck then blk.bottleneck.elim none (fun b => b.forward x)
   else some x).bind fun x1 => seqForward blk.conv_layers x1

/-- The residual branch `self.residual` of an `InceptionBlock`: a
same-padding convolution, a batchnorm and a ReLU in sequence. -/
def InceptionBlock.residualBranch (blk : InceptionBlock α) (x : Tensor3 α) :
    Option (Tensor3 α) :=
  blk.residual.elim none (fun cb =>
    (cb.1.forward x).bind fun r1 => (cb.2.forward r1).map relu)

end Layers

/-- `nn.Linear(in_features, out_features)`: weight of shape
`(out_features, in_features)` (reusing `Tensor2`), `y = x Wᵀ + b`.
PyTorch raises when the input's feature count differs from `in_features`. -/
structure LinearLayer where
  weight : Tensor2 ℚ
  bias : ℕ → ℚ

def LinearLayer.forward (l : LinearLayer) (x : Tensor2 ℚ) : Option (Tensor2 ℚ) :=
  if x.cols = l.weight.cols then
    some ⟨x.rows, l.weight.rows, fun n j =>
      l.bias j + ∑ i ∈ Finset.range l.weight.cols, x.data n i * l.weight.data j i⟩
  else none

/-- `.mean(dim=-1)`: global average pooling over the time dimension. -/
def Tensor3.meanLast (t : Tensor3 ℚ) : Tensor2 ℚ :=
  ⟨t.batch, t.channels, fun n c => (∑ i ∈ Finset.range t.len, t.data n c i) / t.len⟩

/-- A Python `Union[T, List[T]]` hyperparameter value. -/
inductive ListOr (α : Type) where
  | scalar (a : α)
  | list (l : List α)

/-- `use_residuals` may additionally be the string `'default'`. -/
inductive UseResiduals where
  | scalar (b : Bool)
  | list (l : List Bool)
  | default

/-- `InceptionModel._expand_to_blocks(value, num_blocks)`
(src/inception/inception.py lines 13-22): a list must have length
`num_blocks` (the `assert`, whose failure is modelled as `none`); a scalar
is broadcast to `[value] * num_blocks`. -/
def expand_to_blocks {α : Type} (value : ListOr α) (num_blocks : ℕ) :
    Option (List α) :=
  match value with
  | .list l => if l.length = num_blocks then some l else none
  | .scalar a => some (List.replicate num_blocks a)

/-- The state an `InceptionModel` holds after `__init__`. -/
structure InceptionModel where
  blocks : List (InceptionBlock ℚ)
  linear : LinearLayer

/-- `InceptionModel.__init__(num_blocks, in_channels, out_channels,
bottleneck_channels, kernel_sizes, use_residuals, num_pred_classes)`
(src/inception/inception.py lines 24-45), in the source's order:
`channels = [in_channels] + expand(out_channels)`; expand
`bottleneck_channels` and `kernel_sizes`; resolve `use_residuals ==
'default'` to `[i % 3 == 2 for i in range(num_blocks)]` and expand; build
the blocks with `channels[i] -> channels[i+1]`; build the final linear layer
with `in_features = channels[-1]`.  The per-block weights `W` and the linear
layer's parameters stand for PyTorch's random initialisation. -/
def InceptionModel.init (num_blocks in_channels : ℕ)
    (out_channels bottleneck_channels kernel_sizes : ListOr ℕ)
    (use_residuals : UseResiduals) (num_pred_classes : ℕ)
    (W : ℕ → BlockWeights ℚ) (wLinear : ℕ → ℕ → ℚ) (bLinear : ℕ → ℚ) :
    Option InceptionModel :=
  (expand_to_blocks out_channels num_blocks).bind fun oc =>
    let channels := in_channels :: oc
    (expand_to_blocks bottleneck_channels num_blocks).bind fun bc =>
      (expand_to_blocks kernel_sizes num_blocks).bind fun ks =>
        (expand_to_blocks
            (match use_residuals with
             | .default =>
                 .list ((List.range num_blocks).map (fun i => decide (i % 3 = 2)))
             | .scalar b => .scalar b
             | .list l => .list l)
            num_blocks).bind fun ur =>
          some
            { blocks := (List.range num_blocks).map (fun i =>
                InceptionBlock.init (channels.getD i 0) (channels.getD (i + 1) 0)
                  (ur.getD i false) 1 (bc.getD i 0) (ks.getD i 0) (W i))
              linear :=
                ⟨⟨num_pred_classes, channels.getD num_blocks 0, wLinear⟩, bLinear⟩ }

/-- `InceptionModel.forward` (src/inception/inception.py lines 47-49): run
the blocks in sequence, take the mean over the time dimension, apply the
final linear layer.  No activation is applied to the logits. -/
def InceptionModel.forward (m : InceptionModel) (x : Tensor3 ℚ) :
    Option (Tensor2 ℚ) :=
  (m.blocks.foldlM (fun t (b : InceptionBlock ℚ) => b.forward t) x).bind fun y =>
    m.linear.forward y.meanLast

/-! ## Concrete instances used by the theorems -/

/-- An `InceptionBlock(in_channels=1, out_channels=1, residual=False,
stride=1, bottleneck_channels=1, kernel_size=4)` whose (integer-valued)
weights are chosen so that the third convolution makes every output entry
negative: the bottleneck weight and the first two conv weights are all `1`,
the last conv weight is `-1`. -/
def negBlock : InceptionBlock ℤ :=
  InceptionBlock.init 1 1 false 1 1 4
    { zeroBlockWeights with
      wBottleneck := fun _ _ _ => 1
      wConv := fun i _ _ _ => if i = 2 then -1 else 1 }

/-- An `InceptionBlock(in_channels=2, out_channels=8, residual=False,
stride=1, bottleneck_channels=0, kernel_size=9)`: the bottleneck is
disabled. -/
def noBottleneckBlock : InceptionBlock ℚ :=
  InceptionBlock.init 2 8 false 1 0 9 zeroBlockWeights

/-- The model of the spec's end-to-end example: `InceptionModel(num_blocks=3,
in_channels=2, out_channels=8, bottleneck_channels=4, kernel_sizes=9,
use_residuals=False, num_pred_classes=3)`, with all conv and linear weights
zero (the shape behaviour is independent of the weight values). -/
def exampleModel : Option InceptionModel :=
  InceptionModel.init 3 2 (.scalar 8) (.scalar 4) (.scalar 9) (.scalar false) 3
    (fun _ => zeroBlockWeights) (fun _ _ => 0) (fun _ => 0)

/-! ## Theorems -/

/-- C1.  The claim says `conv1d_same_padding` always returns a sequence of
length `ceil(input_length / stride)`; in particular length 100 stays 100 for
stride 1, dilation 1 and any kernel length from 1 to 100.  The code instead
computes its padding from `input.size(1)` and `weight.size(1)`, which for a
batched input are the channel dimensions: on a batched input of shape
`[1, 1, 100]` with a kernel of length 2 (weight shape `[1, 1, 2]`), stride 1
and dilation 1, no padding at all is added and the output length is 99, not
100. -/
theorem conv1d_same_padding_output_length_99 :
    (conv1d_same_padding (zeroT3 1 1 100) (zeroT3 1 1 2) none 1 1 1 :
        Option (Tensor3 ℚ)).map Tensor3.dims = some (1, 1, 99)
      ∧ (99 : ℕ) ≠ 100 := by
  constructor
  · rfl
  · decide

/-- C2.  The claim says `InceptionBlock.forward` applies the constructed
batchnorm and ReLU to the result of the three convolutions before any
residual addition.  In the source, `self.batchnorm` and `self.relu` are
constructed in `__init__` (lines 75-76) but `forward` (lines 87-95) never
applies them: on the all-ones input of shape `[1, 1, 8]`, `negBlock.forward`
returns `-8` at position `(0, 0, 0)` — impossible if a ReLU were applied,
since ReLU output is nonnegative. -/
theorem inception_block_forward_skips_batchnorm_relu :
    (InceptionBlock.forward negBlock (onesT3 1 1 8)).map
        (fun t => t.data 0 0 0) = some (-8)
      ∧ ((-8 : ℤ) < 0) := by
  constructor
  · decide
  · decide

/-- C3.  The claim says that with `bottleneck_channels = 0` no bottleneck is
built and the first main-path convolution consumes `in_channels` directly.
The code builds no bottleneck, but sizes the first convolution from
`channels = [bottleneck_channels] + [out_channels] * 3`, so its input
channel count is `0`, not `in_channels = 2`; consequently `forward` on a
valid input of shape `[1, 2, 50]` fails (PyTorch raises a channel-mismatch
error, modelled as `none`). -/
theorem bottleneck_zero_first_conv_channels :
    noBottleneckBlock.bottleneck = none
      ∧ (noBottleneckBlock.conv_layers.map (fun c => c.weight.channels))
          = [0, 8, 8]
      ∧ (0 : ℕ) ≠ 2
      ∧ InceptionBlock.forward noBottleneckBlock (zeroT3 1 2 50) = none := by
  refine ⟨rfl, rfl, by decide, rfl⟩

/-- C6.  The claim says every validly constructed `InceptionModel` maps any
input `[batch, in_channels, length]` to shape `[batch, num_pred_classes]`,
for any length.  The spec's example model does map a `[5, 2, 50]` input to
shape `[5, 3]`, but on a `[5, 2, 1]` input the second main-path convolution
of the first block (kernel length 9) no longer fits in the underpadded
sequence and PyTorch raises (modelled as `none`), because the same-padding
computation reads the channel dimensions (the C1 defect). -/
theorem example_model_forward_shapes :
    (exampleModel.bind fun m =>
        (m.forward (zeroT3 5 2 50)).map Tensor2.dims) = some (5, 3)
      ∧ (exampleModel.bind fun m => m.forward (zeroT3 5 2 1)) = none := by
  constructor
  · rfl
  · rfl

/-! ## Helper lemmas -/

/-- Appending one unit of end padding and then padding both sides by `p` is
the same as padding by `p` at the start and `p + 1` at the end. -/
theorem Tensor3.padEnds_one_then_sym {α : Type} [LinearOrderedCommRing α]
    (t : Tensor3 α) (p : ℕ) :
    (t.padEnds 0 1).padEnds p p = t.padEnds p (p + 1) := by
  unfold Tensor3.padEnds
  refine Tensor3.ext rfl rfl ?_ ?_
  · dsimp only
    omega
  · funext n c i
    dsimp only
    split_ifs with h1 h2 h3 <;>
      first
        | rfl
        | (exfalso; omega)

theorem expand_list_of_length_ne {α : Type} {l : List α} {n : ℕ}
    (h : l.length ≠ n) : expand_to_blocks (.list l) n = none := by
  simp [expand_to_blocks, h]

theorem expand_list_of_length_eq {α : Type} {l : List α} {n : ℕ}
    (h : l.length = n) : expand_to_blocks (.list l) n = some l := by
  simp [expand_to_blocks, h]

theorem InceptionBlock.init_use_residual {α : Type} [LinearOrderedCommRing α]
    (a b : ℕ) (r : Bool) (s bc k : ℕ) (W : BlockWeights α) :
    (InceptionBlock.init a b r s bc k W).use_residual = r := rfl

/-- Nat ceiling division `(c + s - 1) / s`, as the code computes
`out_length`, agrees with the ceiling of the exact rational quotient. -/
theorem ceil_natCast_div (c s : ℕ) (hs : 0 < s) :
    ⌈(c : ℚ) / (s : ℚ)⌉ = (((c + s - 1) / s : ℕ) : ℤ) := by
  have hs' : (0 : ℚ) < (s : ℚ) := by exact_mod_cast hs
  have hdm := Nat.div_add_mod (c + s - 1) s
  have hml : (c + s - 1) % s < s := Nat.mod_lt _ hs
  set z := (c + s - 1) / s with hz
  set m := (c + s - 1) % s with hm
  have hC : c ≤ s * z := by
    set P := s * z with hP
    omega
  have hD : s * z ≤ c + s - 1 := by
    set P := s * z with hP
    omega
  have hCq : (c : ℚ) ≤ (s : ℚ) * (z : ℚ) := by exact_mod_cast hC
  have hDq : (s : ℚ) * (z : ℚ) ≤ (c : ℚ) + (s : ℚ) - 1 := by
    have h1 : ((s * z : ℕ) : ℚ) ≤ ((c + s - 1 : ℕ) : ℚ) := by exact_mod_cast hD
    have h2 : 1 ≤ c + s := by omega
    push_cast [Nat.cast_sub h2] at h1
    linarith
  rw [Int.ceil_eq_iff]
  constructor
  · push_cast
    rw [lt_div_iff₀ hs']
    linarith
  · push_cast
    rw [div_le_iff₀ hs']
    linarith

/-! ## Theorems for the remaining claims -/

/-- C4.  Whenever the total padding `padding_length` computed by
`conv1d_same_padding` is odd, the effective zero padding applied to the
sequence is `padding_length // 2` at the start and `padding_length // 2 + 1`
at the end: the single extra unit goes to the right/end only, and the
symmetric remainder is applied to both sides by the convolution operation
(`F.conv1d` with `padding=padding_length // 2`). -/
theorem odd_total_padding_goes_right {α : Type} [LinearOrderedCommRing α]
    (input weight : Tensor3 α) (bias : Option (ℕ → α)) (s d g : ℕ)
    (h : paddingLength input.channels weight.channels s d % 2 = 1) :
    conv1d_same_padding input weight bias s d g =
      conv1dRaw
        (input.padEnds (paddingLength input.channels weight.channels s d / 2)
          (paddingLength input.channels weight.channels s d / 2 + 1))
        weight bias s d g := by
  have hne : paddingLength input.channels weight.channels s d % 2 ≠ 0 := by omega
  show F_conv1d (if paddingLength input.channels weight.channels s d % 2 ≠ 0
      then input.padEnds 0 1 else input) weight bias s
      (paddingLength input.channels weight.channels s d / 2) d g = _
  rw [if_pos hne]
  show conv1dRaw ((input.padEnds 0 1).padEnds _ _) weight bias s d g = _
  rw [Tensor3.padEnds_one_then_sym]

/-- Witness for C4: for a batched input of shape `[1, 2, 5]` and a weight of
shape `[1, 2, 1]` with stride 1 and dilation 1, the computed total padding
is 1 (odd), and `conv1d_same_padding` equals the raw convolution of the
input padded by 0 at the start and 1 at the end. -/
theorem odd_total_padding_goes_right_witness :
    paddingLength (zeroT3 1 2 5 : Tensor3 ℚ).channels
        (zeroT3 1 2 1 : Tensor3 ℚ).channels 1 1 % 2 = 1
      ∧ conv1d_same_padding (zeroT3 1 2 5 : Tensor3 ℚ) (zeroT3 1 2 1) none 1 1 1 =
        conv1dRaw
          ((zeroT3 1 2 5 : Tensor3 ℚ).padEnds
            (paddingLength (zeroT3 1 2 5 : Tensor3 ℚ).channels
              (zeroT3 1 2 1 : Tensor3 ℚ).channels 1 1 / 2)
            (paddingLength (zeroT3 1 2 5 : Tensor3 ℚ).channels
              (zeroT3 1 2 1 : Tensor3 ℚ).channels 1 1 / 2 + 1))
          (zeroT3 1 2 1) none 1 1 1 :=
  ⟨by decide, odd_total_padding_goes_right _ _ _ 1 1 1 (by decide)⟩

/-- C5.  When `use_residual` is set, `InceptionBlock.forward` returns the
elementwise (broadcasting) sum of the main-path output and the residual
branch applied to the original, pre-bottleneck input `x`; when it is not
set, it returns the main-path output alone. -/
theorem forward_residual_decomposition {α : Type} [LinearOrderedCommRing α]
    (blk : InceptionBlock α) (x : Tensor3 α) :
    (blk.use_residual = true →
        blk.forward x = (blk.mainPath x).bind fun m =>
          (blk.residualBranch x).bind fun r => m.add r)
      ∧ (blk.use_residual = false → blk.forward x = blk.mainPath x) := by
  unfold InceptionBlock.forward InceptionBlock.mainPath InceptionBlock.residualBranch
  constructor
  · intro h
    rw [h]
    cases (if blk.use_bottleneck then blk.bottleneck.elim none (fun b => b.forward x)
        else some x) with
    | none => rfl
    | some x1 =>
        simp only [Option.some_bind]
        cases seqForward blk.conv_layers x1 with
        | none => rfl
        | some x2 => simp
  · intro h
    rw [h]
    cases (if blk.use_bottleneck then blk.bottleneck.elim none (fun b => b.forward x)
        else some x) with
    | none => rfl
    | some x1 =>
        simp only [Option.some_bind]
        cases seqForward blk.conv_layers x1 with
        | none => rfl
        | some x2 => simp

/-- Witness for C5: a concrete residual block (`in_channels=1`,
`out_channels=1`, `residual=True`, `bottleneck_channels=1`,
`kernel_size=4`, zero weights) on a `[1, 1, 8]` input decomposes as
main path plus residual branch of the original input. -/
def resBlock : InceptionBlock ℚ := InceptionBlock.init 1 1 true 1 1 4 zeroBlockWeights

theorem forward_residual_decomposition_witness :
    resBlock.use_residual = true
      ∧ resBlock.forward (zeroT3 1 1 8) =
        (resBlock.mainPath (zeroT3 1 1 8)).bind fun m =>
          (resBlock.residualBranch (zeroT3 1 1 8)).bind fun r => m.add r :=
  ⟨rfl, (forward_residual_decomposition resBlock (zeroT3 1 1 8)).1 rfl⟩

/-- C7.  Supplying any of the list-typed hyperparameters (`out_channels`,
`bottleneck_channels`, `kernel_sizes`, `use_residuals`) as a list whose
length differs from `num_blocks` makes `InceptionModel.__init__` fail with
the `_expand_to_blocks` assertion (modelled as `none`); the expansion runs
before any block or linear layer is constructed. -/
theorem list_length_mismatch_init_none (n in_ch : ℕ)
    (oc bc ks : ListOr ℕ) (ur : UseResiduals) (npc : ℕ)
    (W : ℕ → BlockWeights ℚ) (wl : ℕ → ℕ → ℚ) (bl : ℕ → ℚ)
    (h : (∃ l, oc = .list l ∧ l.length ≠ n)
      ∨ (∃ l, bc = .list l ∧ l.length ≠ n)
      ∨ (∃ l, ks = .list l ∧ l.length ≠ n)
      ∨ (∃ l, ur = .list l ∧ l.length ≠ n)) :
    InceptionModel.init n in_ch oc bc ks ur npc W wl bl = none := by
  unfold InceptionModel.init
  rcases h with ⟨l, rfl, hl⟩ | ⟨l, rfl, hl⟩ | ⟨l, rfl, hl⟩ | ⟨l, rfl, hl⟩
  · rw [expand_list_of_length_ne hl]
    rfl
  · cases expand_to_blocks oc n with
    | none => rfl
    | some oc1 =>
        dsimp only [Option.some_bind]
        rw [expand_list_of_length_ne hl]
        rfl
  · cases expand_to_blocks oc n with
    | none => rfl
    | some oc1 =>
        dsimp only [Option.some_bind]
        cases expand_to_blocks bc n with
        | none => rfl
        | some bc1 =>
            dsimp only [Option.some_bind]
            rw [expand_list_of_length_ne hl]
            rfl
  · cases expand_to_blocks oc n with
    | none => rfl
    | some oc1 =>
        dsimp only [Option.some_bind]
        cases expand_to_blocks bc n with
        | none => rfl
        | some bc1 =>
            dsimp only [Option.some_bind]
            cases expand_to_blocks ks n with
            | none => rfl
            | some ks1 =>
                dsimp only [Option.some_bind]
                rw [expand_list_of_length_ne hl]
                rfl

/-- Witness for C7: `num_blocks = 2` with `out_channels = [8, 8, 8]` (a list
of length 3) makes construction fail. -/
theorem list_length_mismatch_init_none_witness :
    InceptionModel.init 2 1 (.list [8, 8, 8]) (.scalar 1) (.scalar 4)
        (.scalar false) 1 (fun _ => zeroBlockWeights) (fun _ _ => 0)
        (fun _ => 0) = none :=
  list_length_mismatch_init_none 2 1 (.list [8, 8, 8]) (.scalar 1) (.scalar 4)
    (.scalar false) 1 (fun _ => zeroBlockWeights) (fun _ _ => 0) (fun _ => 0)
    (Or.inl ⟨[8, 8, 8], rfl, by decide⟩)

/-- C8.  With `use_residuals = 'default'`, whenever construction succeeds the
per-block residual flags are `[i % 3 == 2 for i in range(num_blocks)]`;
for `num_blocks = 6` that policy is
`[False, False, True, False, False, True]`. -/
theorem default_residual_policy (n in_ch : ℕ) (oc bc ks : ListOr ℕ) (npc : ℕ)
    (W : ℕ → BlockWeights ℚ) (wl : ℕ → ℕ → ℚ) (bl : ℕ → ℚ) :
    ((InceptionModel.init n in_ch oc bc ks .default npc W wl bl).map
        fun m => m.blocks.map fun b => b.use_residual)
      = (InceptionModel.init n in_ch oc bc ks .default npc W wl bl).map
          (fun _ => (List.range n).map fun i => decide (i % 3 = 2))
    ∧ (List.range 6).map (fun i : ℕ => decide (i % 3 = 2))
        = [false, false, true, false, false, true] := by
  constructor
  · unfold InceptionModel.init
    cases expand_to_blocks oc n with
    | none => rfl
    | some oc1 =>
        dsimp only [Option.some_bind]
        cases expand_to_blocks bc n with
        | none => rfl
        | some bc1 =>
            dsimp only [Option.some_bind]
            cases expand_to_blocks ks n with
            | none => rfl
            | some ks1 =>
                dsimp only [Option.some_bind]
                rw [expand_list_of_length_eq (by simp)]
                dsimp only [Option.some_bind, Option.map_some']
                congr 1
                rw [List.map_map]
                apply List.map_congr_left
                intro i hi
                rw [List.mem_range] at hi
                show (InceptionBlock.init _ _ _ _ _ _ _).use_residual = _
                rw [InceptionBlock.init_use_residual]
                rw [List.getD_eq_getElem?_getD, List.getElem?_map,
                  List.getElem?_range hi]
                rfl
  · decide

/-- C9.  A scalar hyperparameter is broadcast by `_expand_to_blocks` to a
list of length exactly `num_blocks` in which every entry equals the
scalar. -/
theorem expand_scalar_broadcast {α : Type} (v : α) (n : ℕ) :
    expand_to_blocks (.scalar v) n = some (List.replicate n v)
      ∧ (List.replicate n v).length = n
      ∧ ∀ a ∈ List.replicate n v, a = v :=
  ⟨rfl, List.length_replicate n v, fun _ ha => List.eq_of_mem_replicate ha⟩

/-- Witness for C9 at the scalar `7` and `num_blocks = 3`; the membership
hypothesis of the final conjunct is discharged at the concrete entry `7`. -/
theorem expand_scalar_broadcast_witness :
    expand_to_blocks (.scalar (7 : ℕ)) 3 = some (List.replicate 3 7)
      ∧ (List.replicate 3 (7 : ℕ)).length = 3
      ∧ (7 : ℕ) = 7 :=
  ⟨(expand_scalar_broadcast 7 3).1, (expand_scalar_broadcast 7 3).2.1,
    (expand_scalar_broadcast 7 3).2.2 7 (by decide)⟩

/-- C10.  The padding amount computed by `conv1d_same_padding` depends only
on `input.size(1)` and `weight.size(1)` (together with stride and dilation):
two inputs agreeing in their dimension-1 size get the same padding whatever
their sequence lengths, and the padding equals
`max(0, (ceil(c / s) - 1) * s + (w1 - 1) * d + 1 - c)`. -/
theorem padding_depends_only_on_dim1 (i1 i2 w : Tensor3 ℚ) (s d : ℕ)
    (hch : i1.channels = i2.channels) (hs : 0 < s) :
    paddingLength i1.channels w.channels s d
        = paddingLength i2.channels w.channels s d
      ∧ (paddingLength i1.channels w.channels s d : ℤ)
        = max 0 ((⌈(i1.channels : ℚ) / (s : ℚ)⌉ - 1) * s
            + ((w.channels : ℤ) - 1) * d + 1 - i1.channels) := by
  constructor
  · rw [hch]
  · unfold paddingLength
    rw [Int.toNat_of_nonneg (le_max_left _ _), ceil_natCast_div _ _ hs]
    congr 1
    ring

/-- Witness for C10: inputs of shapes `[1, 3, 10]` and `[1, 3, 99]` (same
channel count, different lengths) with a weight of shape `[4, 3, 5]`,
stride 2, dilation 1. -/
theorem padding_depends_only_on_dim1_witness :
    paddingLength (zeroT3 1 3 10 : Tensor3 ℚ).channels
        (zeroT3 4 3 5 : Tensor3 ℚ).channels 2 1
      = paddingLength (zeroT3 1 3 99 : Tensor3 ℚ).channels
          (zeroT3 4 3 5 : Tensor3 ℚ).channels 2 1
    ∧ (paddingLength (zeroT3 1 3 10 : Tensor3 ℚ).channels
          (zeroT3 4 3 5 : Tensor3 ℚ).channels 2 1 : ℤ)
      = max 0 ((⌈((zeroT3 1 3 10 : Tensor3 ℚ).channels : ℚ) / ((2 : ℕ) : ℚ)⌉ - 1)
            * (2 : ℕ)
          + (((zeroT3 4 3 5 : Tensor3 ℚ).channels : ℤ) - 1) * (1 : ℕ) + 1
          - (zeroT3 1 3 10 : Tensor3 ℚ).channels) :=
  padding_depends_only_on_dim1 (zeroT3 1 3 10) (zeroT3 1 3 99) (zeroT3 4 3 5)
    2 1 rfl (by decide)
